import Mathlib

/-!
Shallow embedding of the park demo's movement, collision and progression
core (src/app/main.js, src/app/src/physics/collision.js,
src/app/src/Entities/Player.js, src/app/src/game/state.js).

Numbers are modelled as rationals.  The JS code compares Euclidean
distances `Math.sqrt(dx*dx+dz*dz) < r` only through `<`; this is encoded
exactly by `distLt` (`sqrt s < r` iff `0 < r` and `s < r^2`), so every
collision / ground-height definition below is executable and exact.
-/

namespace Park

/-- A registered collidable descriptor, as pushed into `collidableObjects`
in main.js: planar center `(x, z)`, `radius`, and the optional `height`
field (the platform top height; `none` models a JS record without the
field, `some h` a record with it, including `h = 0`). -/
structure Obstacle where
  x : ℚ
  z : ℚ
  radius : ℚ
  height : Option ℚ
deriving DecidableEq, Repr

/-- `const PLAYER_RADIUS = 1.0` (main.js line 54). -/
def PLAYER_RADIUS : ℚ := 1

/-- `const PLAYER_HEIGHT = 2.0` (main.js line 55). -/
def PLAYER_HEIGHT : ℚ := 2

/-- World boundary constant `240` used in `checkCollision` (main.js line 2318). -/
def WORLD_BOUNDARY : ℚ := 240

/-- Exact encoding of the JS test `Math.sqrt(dx*dx + dz*dz) < r`:
for a nonnegative square root, `sqrt (dx^2 + dz^2) < r` holds iff
`0 < r` and `dx^2 + dz^2 < r^2`. -/
def distLt (dx dz r : ℚ) : Bool :=
  decide (0 < r) && decide (dx ^ 2 + dz ^ 2 < r ^ 2)

/-- `registerCollidable` (collision.js lines 11-13): unconditionally
appends the obstacle to the registry array. -/
def registerCollidable (registry : List Obstacle) (o : Obstacle) : List Obstacle :=
  registry ++ [o]

/-- `clearCollidables` (collision.js): empties the registry. -/
def clearCollidables (_registry : List Obstacle) : List Obstacle := []

/-- Registry built by registering the obstacles of `l` in order,
starting from an empty registry. -/
def buildRegistry (l : List Obstacle) : List Obstacle :=
  l.foldl registerCollidable []

/-- The boundary check at the end of `checkCollision`
(main.js lines 2317-2320): `Math.abs(newX) > 240 || Math.abs(newZ) > 240`. -/
def outOfBounds (newX newZ : ℚ) : Bool :=
  decide (|newX| > WORLD_BOUNDARY) || decide (|newZ| > WORLD_BOUNDARY)

/-- `checkCollision(newX, newZ, playerY)` (main.js lines 2296-2323,
identically collision.js lines 32-59): iterate over the registry; when
the planar distance to an obstacle is below `PLAYER_RADIUS + obj.radius`,
the move is blocked unless the obstacle's `height` field is defined
(`objHeight !== undefined`) and `playerY > objHeight + 1.5`, in which
case the obstacle is skipped.  After the loop the world boundary is
checked. -/
def checkCollision (registry : List Obstacle) (newX newZ playerY : ℚ) : Bool :=
  match registry with
  | [] => outOfBounds newX newZ
  | o :: rest =>
    if distLt (newX - o.x) (newZ - o.z) (PLAYER_RADIUS + o.radius) then
      match o.height with
      | some h =>
        if playerY > h + 1.5 then checkCollision rest newX newZ playerY
        else true
      | none => true
    else checkCollision rest newX newZ playerY

/-- The per-obstacle body of the `getGroundHeight` loop (main.js lines
2331-2347): skip obstacles with falsy `height` (`!obj.height`, i.e. the
field absent or equal to `0`); otherwise, if the planar distance is below
`obj.radius` and `currentY` is in `[height - 0.5, height + 3]`, take the
max of the accumulator and the platform height. -/
def ghStep (x z currentY : ℚ) (acc : ℚ) (o : Obstacle) : ℚ :=
  match o.height with
  | none => acc
  | some h =>
    if h = 0 then acc
    else if distLt (x - o.x) (z - o.z) o.radius then
      if currentY ≥ h - 0.5 ∧ currentY ≤ h + 3 then max acc h else acc
    else acc

/-- `getGroundHeight(x, z, currentY)` (main.js lines 2326-2350,
identically collision.js lines 64-88): fold the loop body over the
registry starting from the base ground level `0`. -/
def getGroundHeight (registry : List Obstacle) (x z currentY : ℚ) : ℚ :=
  registry.foldl (ghStep x z currentY) 0

/-- The blocking condition of one `checkCollision` loop iteration, as a
predicate on the obstacle: within footprint, and not cleared above a
defined platform height. -/
def blocksAt (newX newZ playerY : ℚ) (o : Obstacle) : Bool :=
  distLt (newX - o.x) (newZ - o.z) (PLAYER_RADIUS + o.radius) &&
    (match o.height with
     | some h => decide (¬ playerY > h + 1.5)
     | none => true)

/-- Spec-side qualification predicate, following the spec's words for the
ground-height resolver: the obstacle has a defined `topHeight`, the
planar distance from its center to `(x, z)` is less than its radius, and
`currentY` lies in the landing window `[topHeight - 0.5, topHeight + 3]`. -/
def specQualifies (x z currentY : ℚ) (o : Obstacle) : Bool :=
  match o.height with
  | none => false
  | some h =>
    distLt (x - o.x) (z - o.z) o.radius &&
      decide (currentY ≥ h - 0.5) && decide (currentY ≤ h + 3)

/-- The `topHeight`s of the qualifying obstacles (spec side). -/
def specHeights (registry : List Obstacle) (x z currentY : ℚ) : List ℚ :=
  (registry.filter (specQualifies x z currentY)).filterMap (fun o => o.height)

/-- Spec-side ground-height resolver, following the spec's words: the
maximum `topHeight` among the qualifying obstacles, or `0` when none
qualify. -/
def specGroundHeight (registry : List Obstacle) (x z currentY : ℚ) : ℚ :=
  match specHeights registry x z currentY with
  | [] => 0
  | h :: t => t.foldl max h

/-- The tiered water resistance / sink-rate policy of `updateMovement`
(main.js lines 2634-2657), as a function of the local water depth and
the running flag; returns `(waterResistance, sinkRate)`.
Shallow (`depth < 1`): `(0.9, 0.2)`; medium (`depth < 3`): `(0.6, 0.5)`;
deep (otherwise): `(0.4, 0.8)` when running, `(0.2, 1.2)` when walking. -/
def waterPolicy (depth : ℚ) (isRunning : Bool) : ℚ × ℚ :=
  if depth < 1 then (0.9, 0.2)
  else if depth < 3 then (0.6, 0.5)
  else if isRunning then (0.4, 0.8)
  else (0.2, 1.2)

/-- `const WALK_SPEED = 50.0` (main.js line 11). -/
def WALK_SPEED : ℚ := 50

/-- `const RUN_SPEED = 100.0` (main.js line 12). -/
def RUN_SPEED : ℚ := 100

/-- The mutable player state of main.js's pointer-lock player: camera
position, the `velocity` vector and the `canJump` flag. -/
structure MoveState where
  x : ℚ
  y : ℚ
  z : ℚ
  vx : ℚ
  vy : ℚ
  vz : ℚ
  canJump : Bool
deriving DecidableEq, Repr

/-- Per-frame inputs of `updateMovement` that the core reads from its
collaborators.  `dirX`/`dirZ` stand for the components of `direction`
after `direction.normalize()`; `moveVX`/`moveVZ` for the camera forward
vector with `y` zeroed and normalized; `strafeVX`/`strafeVZ` for
`crossVectors(camera.up, moveVector).normalize()`; `inWater`/`depth` for
the result of `getWaterDepth` (whose value is produced with a square
root by the pond collaborator).  These are irrational-valued in general,
so they enter the embedding as frame inputs quantified over all rational
values. -/
structure FrameInput where
  dt : ℚ
  moveForward : Bool
  moveBackward : Bool
  moveLeft : Bool
  moveRight : Bool
  isRunning : Bool
  dirX : ℚ
  dirZ : ℚ
  moveVX : ℚ
  moveVZ : ℚ
  strafeVX : ℚ
  strafeVZ : ℚ
  inWater : Bool
  depth : ℚ
deriving DecidableEq, Repr

/-- `updateMovement()` (main.js lines 2601-2711), one frame:
gravity on `velocity.y`; resolve `currentGroundHeight` at the current
position; grounded test against `groundLevel + 0.1`; ground/air
friction on the horizontal velocity; tiered water resistance and sinking
(with the water-bottom clamp) when in water and grounded; input
acceleration scaled by speed, air control and water resistance; proposed
horizontal position; `checkCollision` at the current vertical position,
committing the move or zeroing horizontal velocity; vertical
integration; final clamp to `groundLevel` that zeroes `velocity.y` and
re-enables jumping. -/
def updateMovement (registry : List Obstacle) (inp : FrameInput) (s : MoveState) :
    MoveState :=
  let dt := inp.dt
  let vy1 := s.vy - 9.8 * 5.0 * dt
  let currentGroundHeight := getGroundHeight registry s.x s.z s.y
  let groundLevel := currentGroundHeight + PLAYER_HEIGHT
  let isGrounded : Bool := decide (s.y ≤ groundLevel + 0.1)
  let vx1 := if isGrounded then s.vx - s.vx * 10.0 * dt else s.vx - s.vx * 2.0 * dt
  let vz1 := if isGrounded then s.vz - s.vz * 10.0 * dt else s.vz - s.vz * 2.0 * dt
  let inWaterGrounded : Bool := inp.inWater && isGrounded
  let waterResistance := if inWaterGrounded then (waterPolicy inp.depth inp.isRunning).1 else 1
  let sinkRate := if inWaterGrounded then (waterPolicy inp.depth inp.isRunning).2 else 0
  let ySunk := s.y - sinkRate * dt
  let waterBottom := -inp.depth
  let y1 :=
    if inWaterGrounded && decide (ySunk < waterBottom + PLAYER_HEIGHT) then
      waterBottom + PLAYER_HEIGHT
    else ySunk
  let speed := if inp.isRunning then RUN_SPEED else WALK_SPEED
  let airControlFactor : ℚ := if isGrounded then 1.0 else 0.7
  let finalSpeedFactor := airControlFactor * waterResistance
  let vz2 :=
    if inp.moveForward || inp.moveBackward then
      vz1 - inp.dirZ * speed * dt * finalSpeedFactor
    else vz1
  let vx2 :=
    if inp.moveLeft || inp.moveRight then
      vx1 - inp.dirX * speed * dt * finalSpeedFactor
    else vx1
  let potentialX := s.x - inp.strafeVX * vx2 * dt - inp.moveVX * vz2 * dt
  let potentialZ := s.z - inp.strafeVZ * vx2 * dt - inp.moveVZ * vz2 * dt
  let blockedMove := checkCollision registry potentialX potentialZ y1
  let x2 := if blockedMove then s.x else potentialX
  let z2 := if blockedMove then s.z else potentialZ
  let vx3 := if blockedMove then 0 else vx2
  let vz3 := if blockedMove then 0 else vz2
  let y2 := y1 + vy1 * dt
  let hitGround : Bool := decide (y2 < groundLevel)
  { x := x2
    z := z2
    y := if hitGround then groundLevel else y2
    vx := vx3
    vz := vz3
    vy := if hitGround then 0 else vy1
    canJump := if hitGround then true else s.canJump }

/-- Jump-related player state of `Player.handleMovement`
(src/app/src/Entities/Player.js): vertical position and velocity of the
physics body, `jumpCount`, the edge-trigger flag `canJump`, and
`isSwimming`. -/
structure JumpState where
  y : ℚ
  vy : ℚ
  jumpCount : ℕ
  canJump : Bool
  isSwimming : Bool
deriving DecidableEq, Repr

/-- The jump-handling section of `Player.handleMovement`
(src/app/src/Entities/Player.js): reset `jumpCount` to `0` when
grounded; then, if the jump key is held and `canJump`, either launch out
of the water (`velocity.y = 10`, swim state broken) when swimming near
the surface (`y > -1.5`), or perform a regular jump
(`velocity.y = jumpForce = 8`, `jumpCount` incremented) when
`jumpCount < 3`; in either branch `canJump` is cleared; releasing the
key re-arms `canJump`.  The returned Bool is the source's `didJump`
flag: whether the jump request was honored. -/
def jumpStep (grounded jumpKey : Bool) (s : JumpState) : JumpState × Bool :=
  let count0 := if grounded then 0 else s.jumpCount
  if jumpKey then
    if s.canJump then
      if s.isSwimming ∧ s.y > -1.5 then
        ({ s with vy := 10, isSwimming := false, jumpCount := count0, canJump := false },
          true)
      else if count0 < 3 then
        ({ s with vy := 8, jumpCount := count0 + 1, canJump := false }, true)
      else
        ({ s with jumpCount := count0, canJump := false }, false)
    else
      ({ s with jumpCount := count0 }, false)
  else
    ({ s with jumpCount := count0, canJump := true }, false)

/-- The cannon-es player body state touched by `Player.checkWater`
(src/unnamed/part_001 lines 192-218): position, velocity, the
`linearDamping` coefficient and the vertical force accumulated by
`applyForce`. -/
structure Body3 where
  x : ℚ
  y : ℚ
  z : ℚ
  vx : ℚ
  vy : ℚ
  vz : ℚ
  linearDamping : ℚ
  forceY : ℚ
deriving DecidableEq, Repr

/-- `Player.resetToGround` (src/unnamed/part_001): place the body at the
safe spawn `(0, terrainHeight(0,0) + 2, 0)` and zero its velocity.
`h00` is the terrain collaborator's `getTerrainHeightAt(0, 0)`. -/
def resetToGround (h00 : ℚ) (b : Body3) : Body3 :=
  { b with x := 0, y := h00 + 2, z := 0, vx := 0, vy := 0, vz := 0 }

/-- `Player.checkWater` (src/unnamed/part_001 lines 192-218), called
every frame from `Player.update`: below the water level `-0.5`, raise
drag to `0.95` and apply an upward buoyancy force of `15`; otherwise set
normal drag `0.9`.  Then, if the body fell below `-20`, respawn via
`resetToGround`.  Every branch is a plain state update; no branch
raises an error. -/
def checkWater (h00 : ℚ) (b : Body3) : Body3 :=
  let b1 :=
    if b.y < -0.5 then { b with linearDamping := 0.95, forceY := b.forceY + 15 }
    else { b with linearDamping := 0.9 }
  if b1.y < -20 then resetToGround h00 b1 else b1

/-- Collectible kind: main.js distinguishes `userData.isTreasure`,
`userData.type === 'gem'`, and everything else (coins). -/
inductive CKind where
  | gem
  | treasure
  | coin
deriving DecidableEq, Repr

/-- A collectible as created by main.js: world position, kind, point
value (`userData.value`; unused by the treasure branch, which always
awards 500) and the one-way `collected` flag. -/
structure Collectible where
  x : ℚ
  y : ℚ
  z : ℚ
  kind : CKind
  value : ℚ
  collected : Bool
deriving DecidableEq, Repr

/-- The progression fields of main.js's `gameState` object (lines
31-50): score, gem counters, the treasure flag, the three objective
completion flags, the visited-pond index set and the terminal `gameWon`
flag.  `pondsVisited` models the JS `Set` as a duplicate-free list
(insertions below are guarded by membership, as in the source). -/
structure GState where
  score : ℚ
  gemsCollected : ℕ
  totalGems : ℕ
  treasureFound : Bool
  obj0 : Bool
  obj1 : Bool
  obj2 : Bool
  pondsVisited : List ℕ
  gameWon : Bool
deriving DecidableEq, Repr

/-- The `gameState` at session start: everything zero / false / empty,
with `totalGems` fixed by world construction. -/
def initialGState (total : ℕ) : GState :=
  { score := 0, gemsCollected := 0, totalGems := total, treasureFound := false,
    obj0 := false, obj1 := false, obj2 := false, pondsVisited := [],
    gameWon := false }

/-- `checkWinCondition()` (main.js lines 2262-2268): if the game is not
already won and every objective is completed, set `gameWon`. -/
def checkWinCondition (g : GState) : GState :=
  if ¬ g.gameWon ∧ g.obj0 ∧ g.obj1 ∧ g.obj2 then { g with gameWon := true } else g

/-- The `gameState` effect of `collectItem` (main.js lines 2170-2212):
treasure sets `treasureFound`, adds 500 points and completes objective 1;
a gem increments `gemsCollected`, adds its value and completes
objective 0 when all gems are collected; a coin adds its value.
`collectItem` ends by calling `checkWinCondition`. -/
def applyCollect (k : CKind) (v : ℚ) (g : GState) : GState :=
  match k with
  | CKind.treasure =>
    checkWinCondition
      { g with treasureFound := true, score := g.score + 500, obj1 := true }
  | CKind.gem =>
    let g1 := { g with gemsCollected := g.gemsCollected + 1, score := g.score + v }
    let g2 := if g1.gemsCollected ≥ g1.totalGems then { g1 with obj0 := true } else g1
    checkWinCondition g2
  | CKind.coin =>
    checkWinCondition { g with score := g.score + v }

/-- `collectItem(collectible)` (main.js lines 2170-2212): set the
one-way `collected` flag, then update the game state via
`applyCollect` (score, counters, objectives, win check). -/
def collectItem (c : Collectible) (g : GState) : Collectible × GState :=
  ({ c with collected := true }, applyCollect c.kind c.value g)

/-- One iteration of the `checkCollectibles` loop (main.js lines
2147-2168) for the player at `(px, py, pz)`: an already collected
collectible is skipped (`return`); otherwise, when the horizontal
distance is below `2.0` and the vertical distance below `2.5`, the
collectible is collected via `collectItem`. -/
def checkCollectibleStep (px py pz : ℚ) (c : Collectible) (g : GState) :
    Collectible × GState :=
  if c.collected then (c, g)
  else if distLt (px - c.x) (pz - c.z) 2 && decide (|py - c.y| < 2.5) then
    collectItem c g
  else (c, g)

/-- The `gameState` effect of one iteration of the `checkPondVisits`
loop (main.js lines 2243-2260) for pond index `idx`: when the player is
within the discovery radius (`inRange` stands for `distance < 20`) and
the pond is not yet recorded, record it, and complete objective 2 once
three ponds are recorded.  Note: `checkPondVisits` never calls
`checkWinCondition`. -/
def visitPond (inRange : Bool) (idx : ℕ) (g : GState) : GState :=
  if inRange && ! (g.pondsVisited.contains idx) then
    let g1 := { g with pondsVisited := idx :: g.pondsVisited }
    if g1.pondsVisited.length ≥ 3 then { g1 with obj2 := true } else g1
  else g

/-- Progression events of a session, at the granularity of the
`gameState` updates of main.js: a `collectItem` call for a collectible
of kind `k` and value `v`, or one `checkPondVisits` iteration for pond
`idx` with the range test result `inRange`. -/
inductive GEvent where
  | collect (k : CKind) (v : ℚ)
  | pond (inRange : Bool) (idx : ℕ)
deriving DecidableEq, Repr

/-- Apply one progression event to the game state. -/
def applyEvent (g : GState) (e : GEvent) : GState :=
  match e with
  | GEvent.collect k v => applyCollect k v g
  | GEvent.pond inRange idx => visitPond inRange idx g

/-- Run a session's progression events in order. -/
def runEvents (g : GState) (es : List GEvent) : GState :=
  es.foldl applyEvent g

end Park
namespace Park

lemma ghStep_le (x z y acc : ℚ) (o : Obstacle) : acc ≤ ghStep x z y acc o := by
  rcases ho : o.height with _ | h <;> simp only [ghStep, ho] <;>
    (try split_ifs) <;> simp [le_max_left]

lemma foldl_ghStep_ge (x z y : ℚ) :
    ∀ (l : List Obstacle) (acc : ℚ), acc ≤ l.foldl (ghStep x z y) acc
  | [], acc => le_refl acc
  | o :: t, acc =>
    le_trans (ghStep_le x z y acc o) (foldl_ghStep_ge x z y t (ghStep x z y acc o))

lemma getGroundHeight_nonneg (registry : List Obstacle) (x z y : ℚ) :
    0 ≤ getGroundHeight registry x z y :=
  foldl_ghStep_ge x z y registry 0

lemma checkCollision_eq_any (registry : List Obstacle) (newX newZ playerY : ℚ) :
    checkCollision registry newX newZ playerY =
      (registry.any (blocksAt newX newZ playerY) || outOfBounds newX newZ) := by
  induction registry with
  | nil => simp [checkCollision]
  | cons o rest ih =>
    simp only [checkCollision, List.any_cons]
    cases hd : distLt (newX - o.x) (newZ - o.z) (PLAYER_RADIUS + o.radius) with
    | false => simp [blocksAt, hd, ih]
    | true =>
      cases hh : o.height with
      | none => simp [blocksAt, hd, hh]
      | some h =>
        by_cases hy : playerY > h + 1.5
        · simp [blocksAt, hd, hh, hy, ih]
        · simp [blocksAt, hd, hh, hy]

lemma ghStep_comm (x z y : ℚ) (a : ℚ) (o1 o2 : Obstacle) :
    ghStep x z y (ghStep x z y a o1) o2 = ghStep x z y (ghStep x z y a o2) o1 := by
  rcases h1 : o1.height with _ | a1 <;> rcases h2 : o2.height with _ | a2 <;>
    simp only [ghStep, h1, h2] <;> split_ifs <;>
    first | rfl | exact sup_right_comm a _ _

lemma perm_getGroundHeight {l1 l2 : List Obstacle} (hp : l1.Perm l2) (x z y : ℚ) :
    getGroundHeight l1 x z y = getGroundHeight l2 x z y :=
  hp.foldl_eq' (fun o1 _ o2 _ a => ghStep_comm x z y a o1 o2) 0

lemma perm_any {α : Type} {l1 l2 : List α} (hp : l1.Perm l2) (p : α → Bool) :
    l1.any p = l2.any p := by
  cases hc : l2.any p with
  | true =>
    rw [List.any_eq_true] at hc ⊢
    obtain ⟨a, ha, hpa⟩ := hc
    exact ⟨a, hp.mem_iff.mpr ha, hpa⟩
  | false =>
    rw [List.any_eq_false] at hc ⊢
    intro a ha
    exact hc a (hp.mem_iff.mp ha)

lemma perm_checkCollision {l1 l2 : List Obstacle} (hp : l1.Perm l2)
    (newX newZ playerY : ℚ) :
    checkCollision l1 newX newZ playerY = checkCollision l2 newX newZ playerY := by
  rw [checkCollision_eq_any, checkCollision_eq_any,
    perm_any hp (blocksAt newX newZ playerY)]

lemma buildRegistry_eq (l : List Obstacle) : buildRegistry l = l := by
  have key : ∀ (t acc : List Obstacle), t.foldl registerCollidable acc = acc ++ t := by
    intro t
    induction t with
    | nil => simp
    | cons o rest ih => intro acc; simp [registerCollidable, ih]
  simpa [buildRegistry] using key l []

end Park
namespace Park

/-- Claim C1 counterexample: an obstacle with `topHeight = 0` (radius 1,
centered at the origin) does not block a move to its center when the
player is at height 2, even though the planar distance 0 is less than
`PLAYER_RADIUS + radius = 2`: `checkCollision` treats a defined height
of `0` as a platform and skips it for `playerY > 0 + 1.5`. -/
theorem c1_zero_topHeight_counterexample :
    checkCollision [⟨0, 0, 1, some 0⟩] 0 0 2 = false ∧
    distLt (0 - 0) (0 - 0) (PLAYER_RADIUS + (1 : ℚ)) = true := by
  constructor
  · norm_num [checkCollision, distLt, outOfBounds, PLAYER_RADIUS, WORLD_BOUNDARY]
  · norm_num [distLt, PLAYER_RADIUS]

/-- Claim C1 (amended): an obstacle with UNSET `topHeight` always blocks
within its footprint at every player height; an obstacle with a defined
`topHeight` (including `0`) blocks within its footprint only when the
player is not above `topHeight + 1.5`. -/
theorem c1_amended :
    (∀ (registry : List Obstacle) (o : Obstacle) (newX newZ playerY : ℚ),
      o ∈ registry → o.height = none →
      distLt (newX - o.x) (newZ - o.z) (PLAYER_RADIUS + o.radius) = true →
      checkCollision registry newX newZ playerY = true) ∧
    (∀ (registry : List Obstacle) (o : Obstacle) (newX newZ playerY h : ℚ),
      o ∈ registry → o.height = some h → ¬ playerY > h + 1.5 →
      distLt (newX - o.x) (newZ - o.z) (PLAYER_RADIUS + o.radius) = true →
      checkCollision registry newX newZ playerY = true) := by
  constructor
  · intro registry o newX newZ playerY hmem hnone hdist
    rw [checkCollision_eq_any]
    have hb : blocksAt newX newZ playerY o = true := by
      simp [blocksAt, hnone, hdist]
    simp only [Bool.or_eq_true, List.any_eq_true]
    exact Or.inl ⟨o, hmem, hb⟩
  · intro registry o newX newZ playerY h hmem hsome hy hdist
    rw [checkCollision_eq_any]
    have hb : blocksAt newX newZ playerY o = true := by
      simp [blocksAt, hsome, hdist, hy]
    simp only [Bool.or_eq_true, List.any_eq_true]
    exact Or.inl ⟨o, hmem, hb⟩

/-- Witness for `c1_amended` at a tree-trunk-like obstacle (no height)
and a player at height 50 over its center. -/
theorem c1_amended_witness :
    checkCollision [⟨0, 0, 1, none⟩] 0 0 50 = true ∧
    checkCollision [⟨0, 0, 1, some 0⟩] 0 0 1 = true := by
  constructor
  · exact c1_amended.1 [⟨0, 0, 1, none⟩] ⟨0, 0, 1, none⟩ 0 0 50
      (List.mem_singleton.mpr rfl) rfl (by norm_num [distLt, PLAYER_RADIUS])
  · exact c1_amended.2 [⟨0, 0, 1, some 0⟩] ⟨0, 0, 1, some 0⟩ 0 0 1 0
      (List.mem_singleton.mpr rfl) rfl (by norm_num)
      (by norm_num [distLt, PLAYER_RADIUS])

/-- Claim C7: for a fixed set of obstacles, `checkCollision` and
`getGroundHeight` results are independent of registration order:
registries built by registering two permutations of the same obstacles
give identical query answers. -/
theorem c7_order_independence (l1 l2 : List Obstacle) (hp : l1.Perm l2)
    (newX newZ playerY x z currentY : ℚ) :
    checkCollision (buildRegistry l1) newX newZ playerY
        = checkCollision (buildRegistry l2) newX newZ playerY ∧
      getGroundHeight (buildRegistry l1) x z currentY
        = getGroundHeight (buildRegistry l2) x z currentY := by
  rw [buildRegistry_eq, buildRegistry_eq]
  exact ⟨perm_checkCollision hp newX newZ playerY,
    perm_getGroundHeight hp x z currentY⟩

/-- Witness for `c7_order_independence` on a two-obstacle registry
registered in both orders. -/
theorem c7_order_independence_witness :
    ([(⟨0, 0, 1, none⟩ : Obstacle), ⟨3, 3, 2, some 4⟩].Perm
      [⟨3, 3, 2, some 4⟩, ⟨0, 0, 1, none⟩]) ∧
    (checkCollision (buildRegistry [⟨0, 0, 1, none⟩, ⟨3, 3, 2, some 4⟩]) 1 1 2
        = checkCollision (buildRegistry [⟨3, 3, 2, some 4⟩, ⟨0, 0, 1, none⟩]) 1 1 2 ∧
      getGroundHeight (buildRegistry [⟨0, 0, 1, none⟩, ⟨3, 3, 2, some 4⟩]) 3 3 4
        = getGroundHeight (buildRegistry [⟨3, 3, 2, some 4⟩, ⟨0, 0, 1, none⟩]) 3 3 4) := by
  have hp : ([(⟨0, 0, 1, none⟩ : Obstacle), ⟨3, 3, 2, some 4⟩].Perm
      [⟨3, 3, 2, some 4⟩, ⟨0, 0, 1, none⟩]) :=
    List.Perm.swap (⟨3, 3, 2, some 4⟩ : Obstacle) (⟨0, 0, 1, none⟩ : Obstacle) []
  exact ⟨hp, c7_order_independence _ _ hp 1 1 2 3 3 4⟩

end Park
namespace Park

lemma checkWinCondition_score (g : GState) : (checkWinCondition g).score = g.score := by
  unfold checkWinCondition
  split_ifs <;> rfl

lemma applyCollect_score (k : CKind) (v : ℚ) (g : GState) :
    (applyCollect k v g).score =
      g.score + (match k with | CKind.treasure => 500 | _ => v) := by
  cases k <;> simp only [applyCollect, checkWinCondition_score] <;> split_ifs <;> rfl

/-- Claim C8: a collectible's `collected` flag is one-way and guards the
score: a proximity check against an already collected collectible leaves
the collectible and the whole game state unchanged; the false-to-true
transition happens exactly when an uncollected collectible is in range,
and on that transition the score grows by exactly the collectible's
value (the treasure's value being its fixed 500-point award). -/
theorem c8_collect_once (px py pz : ℚ) (c : Collectible) (g : GState) :
    (c.collected = true → checkCollectibleStep px py pz c g = (c, g)) ∧
    (c.collected = false →
      distLt (px - c.x) (pz - c.z) 2 = true → |py - c.y| < 2.5 →
      (checkCollectibleStep px py pz c g).1.collected = true ∧
      (checkCollectibleStep px py pz c g).2.score =
        g.score + (match c.kind with | CKind.treasure => 500 | _ => c.value)) ∧
    (c.collected = true → (checkCollectibleStep px py pz c g).1.collected = true) := by
  refine ⟨?_, ?_, ?_⟩
  · intro hc
    simp [checkCollectibleStep, hc]
  · intro hc hdist hvert
    have hcond : (distLt (px - c.x) (pz - c.z) 2 && decide (|py - c.y| < 2.5)) = true := by
      simp [hdist, hvert]
    constructor
    · simp [checkCollectibleStep, hc, hcond, collectItem]
    · simp only [checkCollectibleStep, hc, Bool.false_eq_true, if_false, hcond, if_true,
        collectItem]
      exact applyCollect_score c.kind c.value g
  · intro hc
    simp [checkCollectibleStep, hc]

/-- Witness for `c8_collect_once`: an uncollected gem of value 10 right
at the player's position is collected and the score grows by 10; an
already collected gem is left untouched. -/
theorem c8_collect_once_witness :
    ((⟨0, 0, 0, CKind.gem, 10, true⟩ : Collectible).collected = true →
      checkCollectibleStep 0 0 0 ⟨0, 0, 0, CKind.gem, 10, true⟩ (initialGState 3)
        = (⟨0, 0, 0, CKind.gem, 10, true⟩, initialGState 3)) ∧
    (checkCollectibleStep 0 0 0 ⟨0, 0, 0, CKind.gem, 10, false⟩ (initialGState 3)).1.collected
        = true ∧
    (checkCollectibleStep 0 0 0 ⟨0, 0, 0, CKind.gem, 10, false⟩ (initialGState 3)).2.score
        = (initialGState 3).score + 10 := by
  refine ⟨(c8_collect_once 0 0 0 ⟨0, 0, 0, CKind.gem, 10, true⟩ (initialGState 3)).1, ?_, ?_⟩
  · exact ((c8_collect_once 0 0 0 ⟨0, 0, 0, CKind.gem, 10, false⟩ (initialGState 3)).2.1
      rfl (by norm_num [distLt]) (by norm_num)).1
  · exact ((c8_collect_once 0 0 0 ⟨0, 0, 0, CKind.gem, 10, false⟩ (initialGState 3)).2.1
      rfl (by norm_num [distLt]) (by norm_num)).2

end Park
namespace Park

/-- Claim C3, evaluated at the failing session: with one gem, the trace
collect-gem, collect-treasure, then discover ponds 0, 1, 2 completes all
three objectives, yet `gameWon` stays false — `checkPondVisits` never
invokes `checkWinCondition`, so a session whose last completed objective
is the pond objective is never marked won, although the code's own
documentation says the win screen appears when all objectives are
complete. -/
theorem c3_pond_last_never_won :
    ((runEvents (initialGState 1)
        [GEvent.collect CKind.gem 10, GEvent.collect CKind.treasure 0,
         GEvent.pond true 0, GEvent.pond true 1, GEvent.pond true 2]).obj0 = true) ∧
    ((runEvents (initialGState 1)
        [GEvent.collect CKind.gem 10, GEvent.collect CKind.treasure 0,
         GEvent.pond true 0, GEvent.pond true 1, GEvent.pond true 2]).obj1 = true) ∧
    ((runEvents (initialGState 1)
        [GEvent.collect CKind.gem 10, GEvent.collect CKind.treasure 0,
         GEvent.pond true 0, GEvent.pond true 1, GEvent.pond true 2]).obj2 = true) ∧
    ((runEvents (initialGState 1)
        [GEvent.collect CKind.gem 10, GEvent.collect CKind.treasure 0,
         GEvent.pond true 0, GEvent.pond true 1, GEvent.pond true 2]).gameWon = false) := by
  norm_num [runEvents, applyEvent, applyCollect, visitPond, checkWinCondition,
    initialGState]

/-- Claim C4 counterexample: in the deep-water tier (depth 4), the sink
rate while running is `0.8`, the sink rate while walking is `1.2`; the
claim that running makes the sink rate strictly greater is false — the
code makes running sink strictly slower (its own comment marks the
walking branch "Sinking faster"). -/
theorem c4_deep_water_counterexample :
    (waterPolicy 4 true).2 = 0.8 ∧ (waterPolicy 4 false).2 = 1.2 ∧
    ¬ (waterPolicy 4 true).2 > (waterPolicy 4 false).2 := by
  norm_num [waterPolicy]

/-- Claim C4 (amended): in the deep tier (`¬ depth < 3`), running raises
the water-resistance speed factor (`0.4` vs `0.2`, so the movement
penalty shrinks) and strictly LOWERS the sink rate (`0.8` vs `1.2`). -/
theorem c4_deep_water_running (depth : ℚ) (hdeep : ¬ depth < 3) :
    (waterPolicy depth false).1 < (waterPolicy depth true).1 ∧
    (waterPolicy depth true).2 < (waterPolicy depth false).2 := by
  have h1 : ¬ depth < 1 := fun h => hdeep (h.trans (by norm_num))
  simp only [waterPolicy, h1, hdeep, if_false, if_true]
  norm_num

/-- Witness for `c4_deep_water_running` at depth 4. -/
theorem c4_deep_water_running_witness :
    ¬ (4 : ℚ) < 3 ∧
    ((waterPolicy 4 false).1 < (waterPolicy 4 true).1 ∧
      (waterPolicy 4 true).2 < (waterPolicy 4 false).2) :=
  ⟨by norm_num, c4_deep_water_running 4 (by norm_num)⟩

/-- Claim C6: whenever the player body has fallen below the `-20`
safety threshold, the per-frame `checkWater` pass resets the position to
the safe spawn `(0, terrainHeight(0,0) + 2, 0)` and zeroes the velocity;
every branch of `checkWater` is a plain state update, so no error is
raised. -/
theorem c6_fell_through_world_respawn (h00 : ℚ) (b : Body3) (hfell : b.y < -20) :
    (checkWater h00 b).x = 0 ∧ (checkWater h00 b).y = h00 + 2 ∧
    (checkWater h00 b).z = 0 ∧ (checkWater h00 b).vx = 0 ∧
    (checkWater h00 b).vy = 0 ∧ (checkWater h00 b).vz = 0 := by
  have h05 : b.y < -0.5 := hfell.trans (by norm_num)
  simp [checkWater, resetToGround, h05, hfell]

/-- Witness for `c6_fell_through_world_respawn`: a body at height `-25`
respawns at `(0, 3, 0)` with zero velocity, for spawn terrain height 1. -/
theorem c6_fell_through_world_respawn_witness :
    ((-25 : ℚ) < -20) ∧
    ((checkWater 1 ⟨3, -25, 4, 1, -2, 0, 0.9, 0⟩).x = 0 ∧
      (checkWater 1 ⟨3, -25, 4, 1, -2, 0, 0.9, 0⟩).y = 1 + 2 ∧
      (checkWater 1 ⟨3, -25, 4, 1, -2, 0, 0.9, 0⟩).z = 0 ∧
      (checkWater 1 ⟨3, -25, 4, 1, -2, 0, 0.9, 0⟩).vx = 0 ∧
      (checkWater 1 ⟨3, -25, 4, 1, -2, 0, 0.9, 0⟩).vy = 0 ∧
      (checkWater 1 ⟨3, -25, 4, 1, -2, 0, 0.9, 0⟩).vz = 0) :=
  ⟨by norm_num, c6_fell_through_world_respawn 1 ⟨3, -25, 4, 1, -2, 0, 0.9, 0⟩ (by norm_num)⟩

/-- Claim C9 counterexample: registering an obstacle with radius `0` is
not rejected — `registerCollidable` appends it, so the registry then
contains an obstacle whose radius is not positive. -/
theorem c9_invalid_radius_accepted :
    registerCollidable [] ⟨0, 0, 0, none⟩ = [⟨0, 0, 0, none⟩] ∧
    (⟨0, 0, 0, none⟩ : Obstacle) ∈ registerCollidable [] ⟨0, 0, 0, none⟩ ∧
    ¬ (0 : ℚ) < (⟨0, 0, 0, none⟩ : Obstacle).radius := by
  refine ⟨rfl, ?_, by norm_num⟩
  simp [registerCollidable]

/-- Claim C9 (amended): registration performs no radius validation:
`registerCollidable` appends every obstacle unconditionally, so the
all-radii-positive invariant holds after a registration exactly as an
assumption on the inputs, not as an enforced rejection. -/
theorem c9_register_appends_unconditionally (registry : List Obstacle) (o : Obstacle) :
    registerCollidable registry o = registry ++ [o] ∧
    ((∀ o' ∈ registry, 0 < o'.radius) → 0 < o.radius →
      ∀ o' ∈ registerCollidable registry o, 0 < o'.radius) := by
  refine ⟨rfl, ?_⟩
  intro hall ho o' hmem
  simp only [registerCollidable, List.mem_append, List.mem_singleton] at hmem
  rcases hmem with h | h
  · exact hall o' h
  · exact h ▸ ho

/-- Witness for `c9_register_appends_unconditionally` on a one-obstacle
registry and a positive-radius obstacle. -/
theorem c9_register_appends_unconditionally_witness :
    registerCollidable [⟨0, 0, 1, none⟩] ⟨5, 5, 2, some 3⟩
        = [⟨0, 0, 1, none⟩] ++ [⟨5, 5, 2, some 3⟩] ∧
    ∀ o' ∈ registerCollidable [⟨0, 0, 1, none⟩] ⟨5, 5, 2, some 3⟩, 0 < o'.radius := by
  refine ⟨(c9_register_appends_unconditionally [⟨0, 0, 1, none⟩] ⟨5, 5, 2, some 3⟩).1, ?_⟩
  exact (c9_register_appends_unconditionally [⟨0, 0, 1, none⟩] ⟨5, 5, 2, some 3⟩).2
    (by intro o' h; simp at h; rw [h]; norm_num) (by norm_num)

end Park
namespace Park

/-- Claim C5: a jump request is honored (the source's `didJump`) exactly
when the edge-trigger `canJump` is armed, the key is pressed, and either
the player is swimming near the water surface (`y > -1.5`, in which case
the launch sets `velocity.y = 10` and breaks the swim state) or fewer
than 3 consecutive jumps have been made since the last ground touch
(`jumpCount`, reset to 0 while grounded); an honored regular jump sets
`velocity.y` to the jump speed 8 and increments the count, and after the
fixed count of 3 (> 1) consecutive jumps a request is denied until a
ground touch resets the count. -/
theorem c5_jump_honoring (grounded jumpKey : Bool) (s : JumpState) :
    ((jumpStep grounded jumpKey s).2 = true ↔
      (jumpKey = true ∧ s.canJump = true ∧
        ((s.isSwimming = true ∧ s.y > -1.5) ∨
          (if grounded then 0 else s.jumpCount) < 3))) ∧
    ((jumpStep grounded jumpKey s).2 = true →
      ¬ (s.isSwimming = true ∧ s.y > -1.5) →
      (jumpStep grounded jumpKey s).1.vy = 8 ∧
        (jumpStep grounded jumpKey s).1.jumpCount
          = (if grounded then 0 else s.jumpCount) + 1) ∧
    ((jumpStep grounded jumpKey s).2 = true →
      (s.isSwimming = true ∧ s.y > -1.5) →
      (jumpStep grounded jumpKey s).1.vy = 10 ∧
        (jumpStep grounded jumpKey s).1.isSwimming = false) ∧
    (3 ≤ (if grounded then 0 else s.jumpCount) →
      ¬ (s.isSwimming = true ∧ s.y > -1.5) →
      (jumpStep grounded jumpKey s).2 = false) := by
  by_cases hswim : s.isSwimming = true ∧ s.y > -1.5
  · cases jumpKey with
    | false => simp [jumpStep, hswim]
    | true =>
      cases hcj : s.canJump with
      | false => simp [jumpStep, hswim, hcj]
      | true => simp [jumpStep, hswim, hcj]
  · by_cases hcount : (if grounded then 0 else s.jumpCount) < 3
    · cases jumpKey with
      | false => simp [jumpStep, hswim, hcount]
      | true =>
        cases hcj : s.canJump with
        | false => simp [jumpStep, hswim, hcj, hcount]
        | true => simp [jumpStep, hswim, hcj, hcount]
    · cases jumpKey with
      | false => simp [jumpStep, hswim, hcount]
      | true =>
        cases hcj : s.canJump with
        | false => simp [jumpStep, hswim, hcj, hcount]
        | true => simp [jumpStep, hswim, hcj, hcount]

/-- Witness for `c5_jump_honoring`: an airborne player with one jump
spent and the trigger armed is honored a second jump with `velocity.y`
set to 8, while a player with all 3 jumps spent is denied. -/
theorem c5_jump_honoring_witness :
    (jumpStep false true ⟨0, 0, 1, true, false⟩).2 = true ∧
    (jumpStep false true ⟨0, 0, 1, true, false⟩).1.vy = 8 ∧
    (jumpStep false true ⟨0, 0, 3, true, false⟩).2 = false := by
  have h1 := c5_jump_honoring false true ⟨0, 0, 1, true, false⟩
  have h2 := c5_jump_honoring false true ⟨0, 0, 3, true, false⟩
  have hj : (jumpStep false true ⟨0, 0, 1, true, false⟩).2 = true :=
    h1.1.mpr ⟨rfl, rfl, Or.inr (by norm_num)⟩
  refine ⟨hj, (h1.2.1 hj (by simp)).1, ?_⟩
  exact h2.2.2.2 (by norm_num) (by simp)

lemma clamp_ge (gl y2 : ℚ) : gl ≤ (if (decide (y2 < gl) : Bool) then gl else y2) := by
  split_ifs with h
  · exact le_refl gl
  · simpa using h

/-- Claim C10: at the end of every `updateMovement` frame the player's
vertical position is at least the frame's resolved ground level
(`getGroundHeight` at the frame-start position plus `PLAYER_HEIGHT`),
and since the resolved ground height is never negative, it is at least
`PLAYER_HEIGHT` above zero. -/
theorem c10_end_of_frame_above_ground (registry : List Obstacle)
    (inp : FrameInput) (s : MoveState) :
    getGroundHeight registry s.x s.z s.y + PLAYER_HEIGHT
        ≤ (updateMovement registry inp s).y ∧
    PLAYER_HEIGHT ≤ (updateMovement registry inp s).y := by
  have hnn : 0 ≤ getGroundHeight registry s.x s.z s.y :=
    getGroundHeight_nonneg registry s.x s.z s.y
  have hy : getGroundHeight registry s.x s.z s.y + PLAYER_HEIGHT
      ≤ (updateMovement registry inp s).y := by
    simp only [updateMovement]
    exact clamp_ge _ _
  exact ⟨hy, le_trans (by linarith) hy⟩

end Park
namespace Park

lemma specHeights_nil (x z y : ℚ) : specHeights [] x z y = [] := rfl

lemma specHeights_cons_of_qualifies (x z y : ℚ) (o : Obstacle) (t : List Obstacle)
    (h : ℚ) (ho : o.height = some h) (hq : specQualifies x z y o = true) :
    specHeights (o :: t) x z y = h :: specHeights t x z y := by
  simp [specHeights, List.filter_cons, hq, List.filterMap_cons, ho]

lemma specHeights_cons_of_not_qualifies (x z y : ℚ) (o : Obstacle) (t : List Obstacle)
    (hq : specQualifies x z y o = false) :
    specHeights (o :: t) x z y = specHeights t x z y := by
  simp [specHeights, List.filter_cons, hq]

lemma specHeights_mem_nonneg (x z y : ℚ) (l : List Obstacle)
    (hnn : ∀ o ∈ l, ∀ h, o.height = some h → 0 ≤ h) :
    ∀ a ∈ specHeights l x z y, 0 ≤ a := by
  intro a ha
  simp only [specHeights, List.mem_filterMap, List.mem_filter] at ha
  obtain ⟨o, ⟨hol, _⟩, hheight⟩ := ha
  exact hnn o hol a hheight

lemma foldl_ghStep_eq_foldl_max (x z y : ℚ) :
    ∀ (l : List Obstacle) (acc : ℚ), 0 ≤ acc →
      (∀ o ∈ l, ∀ h, o.height = some h → 0 ≤ h) →
      l.foldl (ghStep x z y) acc = (specHeights l x z y).foldl max acc := by
  intro l
  induction l with
  | nil => intro acc _ _; simp [specHeights_nil]
  | cons o t ih =>
    intro acc hacc hnn
    have hnn_t : ∀ o' ∈ t, ∀ h, o'.height = some h → 0 ≤ h :=
      fun o' ho' => hnn o' (List.mem_cons_of_mem o ho')
    rcases ho : o.height with _ | h
    · have hq : specQualifies x z y o = false := by simp [specQualifies, ho]
      rw [List.foldl_cons, specHeights_cons_of_not_qualifies x z y o t hq]
      have hstep : ghStep x z y acc o = acc := by simp [ghStep, ho]
      rw [hstep]
      exact ih acc hacc hnn_t
    · have hh : 0 ≤ h := hnn o (List.mem_cons_self o t) h ho
      cases hq : specQualifies x z y o with
      | true =>
        rw [List.foldl_cons, specHeights_cons_of_qualifies x z y o t h ho hq,
          List.foldl_cons]
        have hcond : distLt (x - o.x) (z - o.z) o.radius = true ∧
            y ≥ h - 0.5 ∧ y ≤ h + 3 := by
          simpa [specQualifies, ho, and_assoc] using hq
        by_cases h0 : h = 0
        · have hstep : ghStep x z y acc o = acc := by simp [ghStep, ho, h0]
          have hmax : max acc h = acc := by
            rw [h0]
            exact max_eq_left hacc
          rw [hstep, hmax]
          exact ih acc hacc hnn_t
        · have hstep : ghStep x z y acc o = max acc h := by
            simp [ghStep, ho, h0, hcond.1, hcond.2.1, hcond.2.2]
          rw [hstep]
          exact ih (max acc h) (le_trans hacc (le_max_left acc h)) hnn_t
      | false =>
        rw [List.foldl_cons, specHeights_cons_of_not_qualifies x z y o t hq]
        have hnot : ¬ (distLt (x - o.x) (z - o.z) o.radius = true ∧
            y ≥ h - 0.5 ∧ y ≤ h + 3) := by
          intro hcon
          have : specQualifies x z y o = true := by
            simp [specQualifies, ho, and_assoc, hcon.1, hcon.2.1, hcon.2.2]
          rw [this] at hq
          exact Bool.noConfusion hq
        have hstep : ghStep x z y acc o = acc := by
          simp only [ghStep, ho]
          by_cases h0 : h = 0
          · rw [if_pos h0]
          · rw [if_neg h0]
            by_cases hd : distLt (x - o.x) (z - o.z) o.radius = true
            · rw [if_pos hd, if_neg (fun hw => hnot ⟨hd, hw⟩)]
            · rw [if_neg hd]
        rw [hstep]
        exact ih acc hacc hnn_t

/-- Claim C2: for obstacles satisfying the data-model invariant
(`topHeight`, when present, is nonnegative), `getGroundHeight` returns
exactly the maximum `topHeight` over the qualifying obstacles (defined
`topHeight`, planar distance below radius, `currentY` in the landing
window), or `0` when none qualify, and the result is never negative. -/
theorem c2_ground_height_is_max (registry : List Obstacle) (x z currentY : ℚ)
    (hnn : ∀ o ∈ registry, ∀ h, o.height = some h → 0 ≤ h) :
    getGroundHeight registry x z currentY = specGroundHeight registry x z currentY ∧
    0 ≤ getGroundHeight registry x z currentY := by
  constructor
  · rw [getGroundHeight, foldl_ghStep_eq_foldl_max x z currentY registry 0 le_rfl hnn,
      specGroundHeight]
    have hnnh := specHeights_mem_nonneg x z currentY registry hnn
    cases hs : specHeights registry x z currentY with
    | nil => rfl
    | cons h t =>
      have h0 : 0 ≤ h := hnnh h (by rw [hs]; exact List.mem_cons_self h t)
      simp [List.foldl_cons, max_eq_right h0]
  · exact getGroundHeight_nonneg registry x z currentY

/-- Witness for `c2_ground_height_is_max`: a platform of height 3,
radius 5 at the origin, queried at its center from height 3.2. -/
theorem c2_ground_height_is_max_witness :
    (∀ o ∈ [(⟨0, 0, 5, some 3⟩ : Obstacle)], ∀ h, o.height = some h → 0 ≤ h) ∧
    (getGroundHeight [⟨0, 0, 5, some 3⟩] 0 0 3.2
        = specGroundHeight [⟨0, 0, 5, some 3⟩] 0 0 3.2 ∧
      0 ≤ getGroundHeight [⟨0, 0, 5, some 3⟩] 0 0 3.2) := by
  have hnn : ∀ o ∈ [(⟨0, 0, 5, some 3⟩ : Obstacle)], ∀ h, o.height = some h → 0 ≤ h := by
    intro o ho h hh
    simp only [List.mem_singleton] at ho
    rw [ho] at hh
    simp only [Option.some.injEq] at hh
    rw [← hh]
    norm_num
  exact ⟨hnn, c2_ground_height_is_max [⟨0, 0, 5, some 3⟩] 0 0 3.2 hnn⟩

end Park
